import Mathlib

/-!
Verification development for the XMPP chatting codec
(`kik_unofficial/datatypes/xmpp/chatting.py`).

The Python module builds outgoing stanzas by string formatting and decodes
incoming stanzas from a BeautifulSoup tree.  We embed it shallowly:

* serialized stanzas are modelled as `String` (the Python code ends with
  `.encode()`, which is an injective UTF-8 encoding of the same string);
* the parsed XML tree handed to the decoders is modelled by `XmlNode`;
* BeautifulSoup accessors are modelled faithfully: attribute-style element
  access (`data.request`) is a recursive first-descendant search,
  `find(name, recursive=False)` searches direct children only,
  `tag[attr]` fails when the attribute is absent (Python `KeyError`),
  `findAll` returns all matching descendants in document (preorder) order,
  and a `Tag` is always truthy while `None` is falsy;
* Python failure (`KeyError` / `TypeError` / `AttributeError` escaping the
  constructor) is modelled by `Option`: a decoder returns `none` exactly
  when the Python constructor raises;
* the wall-clock reading `time.time() * 1000` taken inside `serialize`
  is passed explicitly as a `Nat` parameter `now`, and the `message_id`
  assigned by the `XMPPElement` base class (outside this module) is passed
  explicitly as a `String` parameter.
-/

mutual
/-- A node of the parsed XML tree: an element with a name, an attribute
list and child nodes, or a text node.  The children form a mutually
inductive forest so that the tree-walking functions below are structurally
recursive and therefore compute definitionally. -/
inductive XmlNode where
  | elem (name : String) (attrs : List (String × String)) (children : XmlForest)
  | text (s : String)
/-- A forest of sibling XML subtrees, in document order. -/
inductive XmlForest where
  | nil
  | cons (head : XmlNode) (tail : XmlForest)
end

/-- Build a forest from a list of nodes. -/
def XmlForest.ofList : List XmlNode → XmlForest
  | [] => .nil
  | n :: rest => .cons n (XmlForest.ofList rest)

/-- The nodes of a forest, in order. -/
def XmlForest.toList : XmlForest → List XmlNode
  | .nil => []
  | .cons n rest => n :: rest.toList

namespace XmlNode

/-- Children of a node (text nodes have none). -/
def childrenOf : XmlNode → XmlForest
  | .elem _ _ cs => cs
  | .text _ => .nil

/-- Attribute lookup, `tag.get(key)` / guarded `tag[key]`: `none` when the
attribute is absent (Python `tag[key]` raises `KeyError` then). -/
def getAttr (n : XmlNode) (key : String) : Option String :=
  match n with
  | .elem _ attrs _ => (attrs.find? (fun p => p.1 = key)).map (fun p => p.2)
  | .text _ => none

/-- Is this node an element with the given tag name? -/
def isElemNamed (name : String) : XmlNode → Bool
  | .elem n _ _ => n = name
  | .text _ => false

/-- First matching descendant element in document (preorder) order, over a
forest of sibling subtrees: BeautifulSoup `find(name)` / `data.name`. -/
def findDescList (name : String) : XmlForest → Option XmlNode
  | .nil => none
  | .cons (.text _) rest => findDescList name rest
  | .cons (.elem n a cs) rest =>
    if n = name then some (.elem n a cs)
    else
      match findDescList name cs with
      | some r => some r
      | none => findDescList name rest

/-- BeautifulSoup `data.find(name)` (recursive): first matching descendant
of `n`, excluding `n` itself. -/
def findDesc (name : String) (n : XmlNode) : Option XmlNode :=
  findDescList name n.childrenOf

/-- First matching element among a forest of direct children:
BeautifulSoup `find(name, recursive=False)`. -/
def findChildList (name : String) : XmlForest → Option XmlNode
  | .nil => none
  | .cons (.text _) rest => findChildList name rest
  | .cons (.elem n a cs) rest =>
    if n = name then some (.elem n a cs) else findChildList name rest

/-- BeautifulSoup `data.find(name, recursive=False)`. -/
def findChild (name : String) (n : XmlNode) : Option XmlNode :=
  findChildList name n.childrenOf

/-- All matching descendant elements in document (preorder) order, over a
forest of sibling subtrees: BeautifulSoup `findAll(name)`. -/
def findAllList (name : String) : XmlForest → List XmlNode
  | .nil => []
  | .cons (.text _) rest => findAllList name rest
  | .cons (.elem n a cs) rest =>
    (if n = name then [XmlNode.elem n a cs] else []) ++ findAllList name cs ++ findAllList name rest

/-- BeautifulSoup `n.findAll(name)`: all matching descendants of `n`. -/
def findAllDesc (name : String) (n : XmlNode) : List XmlNode :=
  findAllList name n.childrenOf

/-- Concatenated text of a forest of subtrees, in document order. -/
def textOfList : XmlForest → String
  | .nil => ""
  | .cons (.text s) rest => s ++ textOfList rest
  | .cons (.elem _ _ cs) rest => textOfList cs ++ textOfList rest

/-- BeautifulSoup `tag.text` / `get_text()`: all descendant text joined in
document order. -/
def textOf : XmlNode → String
  | .text s => s
  | .elem _ _ cs => textOfList cs

/-- BeautifulSoup `tag.string`: the unique text child if the node has
exactly one child, descending through unique element children; `none`
otherwise. -/
def stringOf : XmlNode → Option String
  | .text s => some s
  | .elem _ _ (.cons c .nil) => stringOf c
  | .elem _ _ _ => none

end XmlNode

/-- Python `str(x)` for an optional string, as used by
`"...".format(self.group_jid)` when `group_jid` may be `None`. -/
def pyStr : Option String → String
  | none => "None"
  | some s => s

/-- Python truthiness of an optional string (`None` and `""` are falsy). -/
def pyTruthyStr : Option String → Bool
  | none => false
  | some s => s ≠ ""

/-- Does the character list begin with the pattern? -/
def hasPrefixL : List Char → List Char → Bool
  | [], _ => true
  | _ :: _, [] => false
  | a :: as, b :: bs => a == b && hasPrefixL as bs

/-- Does the pattern occur as a contiguous run in the list? -/
def hasSubL (pat : List Char) : List Char → Bool
  | [] => hasPrefixL pat []
  | b :: bs => hasPrefixL pat (b :: bs) || hasSubL pat bs

/-- Python `pat in s` substring membership on strings. -/
def pyInStr (pat s : String) : Bool :=
  hasSubL pat.toList s.toList

/-- The XML entity for the apostrophe character. -/
def aposEntity : String := String.mk [Char.ofNat 38, Char.ofNat 97, Char.ofNat 112, Char.ofNat 111, Char.ofNat 115, Char.ofNat 59]

/-- Escaping of one character into its XML entity form where required. -/
def escapeChar (c : Char) : String :=
  if c = Char.ofNat 38 then "&amp;"
  else if c = Char.ofNat 60 then "&lt;"
  else if c = Char.ofNat 62 then "&gt;"
  else if c = Char.ofNat 34 then "&quot;"
  else if c = Char.ofNat 39 then aposEntity
  else String.singleton c

/-- Modelled from the spec: `ParsingUtilities.escape_xml` lives in
`kik_unofficial/utilities/parsing_utilities.py`, which is not part of this
module; per the spec it "replaces `&`, `<`, `>`, `"`, `'` with their XML
entity forms before embedding into element bodies or attribute values". -/
def escape_xml (s : String) : String :=
  String.join (s.toList.map escapeChar)

/-- Python character slicing `s[0:n]`: the first `min(n, len(s))`
characters of `s`. -/
def pySlice (s : String) (n : Nat) : String :=
  String.mk (s.toList.take n)

/-- Fields of `OutgoingChatMessage` (also `OutgoingGroupChatMessage`,
which only fixes `is_group=True` at construction). -/
structure OutgoingChatMessage where
  peer_jid : String
  body : String
  is_group : Bool
  bot_mention_jid : Option String
deriving Repr, DecidableEq

/-- `OutgoingChatMessage.serialize`.  `message_id` is the id assigned by
the `XMPPElement` base class; `now` is the millisecond wall-clock reading
`int(round(time.time() * 1000))` taken at the start of the call. -/
def OutgoingChatMessage.serialize (m : OutgoingChatMessage) (message_id : String) (now : Nat) : String :=
  let timestamp := toString now
  let message_type := if !m.is_group then "chat" else "groupchat"
  let bot_mention_data :=
    if pyTruthyStr m.bot_mention_jid then
      "<mention><bot>" ++ pyStr m.bot_mention_jid ++ "</bot></mention>"
    else ""
  "<message type=\"" ++ message_type ++ "\" to=\"" ++ m.peer_jid ++ "\" id=\"" ++ message_id ++ "\" cts=\"" ++ timestamp ++ "\">" ++
    "<body>" ++ escape_xml m.body ++ "</body>" ++
    bot_mention_data ++
    "<preview>" ++ escape_xml (pySlice m.body 20) ++ "</preview>" ++
    "<kik push=\"true\" qos=\"true\" timestamp=\"" ++ timestamp ++ "\" />" ++
    "<request xmlns=\"kik:message:receipt\" r=\"true\" d=\"true\" />" ++
    "<ri></ri>" ++
    "</message>"

/-- Fields of `OutgoingReadReceipt`. -/
structure OutgoingReadReceipt where
  peer_jid : String
  receipt_message_id : String
  group_jid : Option String
deriving Repr, DecidableEq

/-- `OutgoingReadReceipt.serialize`: note that the trailing `g` element is
appended exactly when the literal substring `"groups"` occurs in the
already-formatted `group_line` string. -/
def OutgoingReadReceipt.serialize (r : OutgoingReadReceipt) (message_id : String) (now : Nat) : String :=
  let timestamp := toString now
  let group_line := "<g jid=\"" ++ pyStr r.group_jid ++ "\" />"
  let data :=
    "<message type=\"receipt\" id=\"" ++ message_id ++ "\" to=\"" ++ r.peer_jid ++ "\" cts=\"" ++ timestamp ++ "\">" ++
      "<kik push=\"false\" qos=\"true\" timestamp=\"" ++ timestamp ++ "\" />" ++
      "<receipt xmlns=\"kik:message:receipt\" type=\"read\">" ++
      "<msgid id=\"" ++ r.receipt_message_id ++ "\" />" ++
      "</receipt>"
  if pyInStr "groups" group_line then data ++ group_line ++ "</message>"
  else data ++ "</message>"

/-- Fields of `OutgoingDeliveredReceipt`. -/
structure OutgoingDeliveredReceipt where
  peer_jid : String
  receipt_message_id : String
deriving Repr, DecidableEq

/-- `OutgoingDeliveredReceipt.serialize`. -/
def OutgoingDeliveredReceipt.serialize (r : OutgoingDeliveredReceipt) (message_id : String) (now : Nat) : String :=
  let timestamp := toString now
  "<message type=\"receipt\" id=\"" ++ message_id ++ "\" to=\"" ++ r.peer_jid ++ "\" cts=\"" ++ timestamp ++ "\">" ++
    "<kik push=\"false\" qos=\"true\" timestamp=\"" ++ timestamp ++ "\" />" ++
    "<receipt xmlns=\"kik:message:receipt\" type=\"delivered\">" ++
    "<msgid id=\"" ++ r.receipt_message_id ++ "\" />" ++
    "</receipt>" ++
    "</message>"

/-- Python `str(b).lower()` for a boolean. -/
def pyBoolStr (b : Bool) : String := if b then "true" else "false"

/-- Fields of `OutgoingIsTypingEvent`. -/
structure OutgoingIsTypingEvent where
  peer_jid : String
  is_typing : Bool
deriving Repr, DecidableEq

/-- `OutgoingIsTypingEvent.serialize`. -/
def OutgoingIsTypingEvent.serialize (e : OutgoingIsTypingEvent) (message_id : String) (now : Nat) : String :=
  let timestamp := toString now
  "<message type=\"chat\" to=\"" ++ e.peer_jid ++ "\" id=\"" ++ message_id ++ "\">" ++
    "<kik push=\"false\" qos=\"false\" timestamp=\"" ++ timestamp ++ "\" />" ++
    "<is-typing val=\"" ++ pyBoolStr e.is_typing ++ "\" />" ++
    "</message>"

/-- Fields of `OutgoingGroupIsTypingEvent`. -/
structure OutgoingGroupIsTypingEvent where
  peer_jid : String
  is_typing : Bool
deriving Repr, DecidableEq

/-- `OutgoingGroupIsTypingEvent.serialize`. -/
def OutgoingGroupIsTypingEvent.serialize (e : OutgoingGroupIsTypingEvent) (message_id : String) (now : Nat) : String :=
  let timestamp := toString now
  "<message type=\"groupchat\" to=\"" ++ e.peer_jid ++ "\" id=\"" ++ message_id ++ "\">" ++
    "<pb></pb>" ++
    "<kik push=\"false\" qos=\"false\" timestamp=\"" ++ timestamp ++ "\" />" ++
    "<is-typing val=\"" ++ pyBoolStr e.is_typing ++ "\" />" ++
    "</message>"

/-- Fields of `OutgoingLinkShareEvent`. -/
structure OutgoingLinkShareEvent where
  peer_jid : String
  link : String
  title : String
  text : String
  app_name : String
deriving Repr, DecidableEq

/-- `OutgoingLinkShareEvent.serialize`: the `type` attribute (and the
`kik:groups` namespace) is chosen by Python `'group' in self.peer_jid`. -/
def OutgoingLinkShareEvent.serialize (e : OutgoingLinkShareEvent) (message_id : String) (now : Nat) : String :=
  let message_type :=
    if pyInStr "group" e.peer_jid then "type=\"groupchat\" xmlns=\"kik:groups\""
    else "type=\"chat\""
  let timestamp := toString now
  "<message " ++ message_type ++ " to=\"" ++ e.peer_jid ++ "\" id=\"" ++ message_id ++ "\" cts=\"" ++ timestamp ++ "\">" ++
    "<pb></pb>" ++
    "<kik push=\"true\" qos=\"true\" timestamp=\"" ++ timestamp ++ "\" />" ++
    "<request xmlns=\"kik:message:receipt\" r=\"true\" d=\"true\" />" ++
    "<content id=\"" ++ message_id ++ "\" app-id=\"com.kik.cards\" v=\"2\">" ++
    "<strings>" ++
    "<app-name>" ++ e.app_name ++ "</app-name>" ++
    "<layout>article</layout>" ++
    "<title>" ++ e.title ++ "</title>" ++
    "<text>" ++ e.text ++ "</text>" ++
    "<allow-forward>true</allow-forward>" ++
    "</strings>" ++
    "<extras />" ++
    "<hashes />" ++
    "<images>" ++
    "</images>" ++
    "<uris>" ++
    "<uri platform=\"cards\">" ++ e.link ++ "</uri>" ++
    "<uri></uri>" ++
    "<uri>http://cdn.kik.com/cards/unsupported.html</uri>" ++
    "</uris>" ++
    "</content>" ++
    "</message>"

/-- Fields of `IncomingChatMessage` as set by its constructor. -/
structure IncomingChatMessage where
  request_delivered_receipt : Bool
  request_read_receipt : Bool
  status : Option String
  preview : Option String
  from_jid : String
  to_jid : String
  body : Option String
  is_typing : Option Bool
deriving Repr, DecidableEq

/-- `IncomingChatMessage.__init__`: `data.request` is a recursive
first-descendant lookup; when the `request` element is present, the `d`
and `r` attribute reads are unguarded `tag[key]` accesses (they raise a
`KeyError`, i.e. fail, when the attribute is absent); when it is absent
both booleans are `False`.  `body` uses `find('body', recursive=False)`.
All failure is collapsed into `none`. -/
def decodeIncomingChatMessage (data : XmlNode) : Option IncomingChatMessage := do
  let request := data.findDesc "request"
  let request_delivered_receipt ← match request with
    | some r => (r.getAttr "d").map (fun v => v == "true")
    | none => some false
  let request_read_receipt ← match request with
    | some r => (r.getAttr "r").map (fun v => v == "true")
    | none => some false
  let status := (data.findDesc "status").map XmlNode.textOf
  let preview := (data.findDesc "preview").map XmlNode.textOf
  let from_jid ← data.getAttr "from"
  let to_jid ← data.getAttr "to"
  let body := (data.findChild "body").map XmlNode.textOf
  let is_typing ← match data.findDesc "is-typing" with
    | some t => (t.getAttr "val").map (fun v => some (v == "true"))
    | none => some none
  pure ⟨request_delivered_receipt, request_read_receipt, status, preview,
        from_jid, to_jid, body, is_typing⟩

/-- Fields of `IncomingGroupChatMessage`: the chat-message fields plus the
group identifier. -/
structure IncomingGroupChatMessage extends IncomingChatMessage where
  group_jid : String
deriving Repr, DecidableEq

/-- `IncomingGroupChatMessage.__init__`: runs the chat-message extraction,
then `g = data.find('g', recursive=False)` followed by the unguarded
`g['jid']` (a missing direct `g` child makes the subscript raise a
`TypeError`, a missing `jid` attribute a `KeyError`). -/
def decodeIncomingGroupChatMessage (data : XmlNode) : Option IncomingGroupChatMessage := do
  let base ← decodeIncomingChatMessage data
  let g ← data.findChild "g"
  let group_jid ← g.getAttr "jid"
  pure ⟨base, group_jid⟩

/-- Fields of `IncomingGroupReceiptsEvent`. -/
structure IncomingGroupReceiptsEvent where
  from_jid : String
  to_jid : String
  group_jid : String
  receipt_ids : List String
  type : String
deriving Repr, DecidableEq

/-- `IncomingGroupReceiptsEvent.__init__`: `receipt_ids` is the comprehension
`[msgid['id'] for msgid in data.receipt.findAll('msgid')]`. -/
def decodeIncomingGroupReceiptsEvent (data : XmlNode) : Option IncomingGroupReceiptsEvent := do
  let from_jid ← data.getAttr "from"
  let to_jid ← data.getAttr "to"
  let g ← data.findDesc "g"
  let group_jid ← g.getAttr "jid"
  let receipt ← data.findDesc "receipt"
  let receipt_ids ← (receipt.findAllDesc "msgid").mapM (fun m => m.getAttr "id")
  let ty ← receipt.getAttr "type"
  pure ⟨from_jid, to_jid, group_jid, receipt_ids, ty⟩

/-- Python `dict` assignment `m[k] = v`: an existing key keeps its position
and gets the new value, a new key is appended. -/
def dictInsert (m : List (Option String × String)) (k : Option String) (v : String) :
    List (Option String × String) :=
  if m.any (fun p => decide (p.1 = k)) then
    m.map (fun p => if p.1 = k then (k, v) else p)
  else m ++ [(k, v)]

/-- Python `m[k]` / `k in m` on the extras dict, as an optional lookup. -/
def dictLookup (m : List (Option String × String)) (k : Option String) : Option String :=
  (m.find? (fun p => decide (p.1 = k))).map (fun p => p.2)

/-- The dict built by inserting a list of key/value pairs in order into an
empty Python dict. -/
def extrasFold (pairs : List (Option String × String)) : List (Option String × String) :=
  pairs.foldl (fun m p => dictInsert m p.1 p.2) []

/-- One iteration of `IncomingGroupSticker.parse_extras`: `item.key.string`
and `item.val.text`, failing (AttributeError) when the `key` or `val`
element is missing; a `key` whose `.string` is `None` yields a `None`
dict key. -/
def extractItemPair (item : XmlNode) : Option (Option String × String) := do
  let k ← item.findDesc "key"
  let v ← item.findDesc "val"
  pure (k.stringOf, v.textOf)

/-- `IncomingGroupSticker.parse_extras`: builds a flat key-to-value dict
from the `item` descendants of the `extras` element. -/
def parse_extras (extras : XmlNode) : Option (List (Option String × String)) := do
  let pairs ← (extras.findAllDesc "item").mapM extractItemPair
  pure (extrasFold pairs)

/-- Fields of the inner class `IncomingGroupSticker.Uri`. -/
structure GroupStickerUri where
  platform : String
  url : String
deriving Repr, DecidableEq

/-- One iteration of `for uri in content.uris`: iterating a tag yields its
direct children including text nodes; `uri['platform']` raises on a text
node and on a missing attribute. -/
def decodeStickerUri : XmlNode → Option GroupStickerUri
  | .text _ => none
  | .elem n a cs => do
    let platform ← (XmlNode.elem n a cs).getAttr "platform"
    pure ⟨platform, (XmlNode.elem n a cs).textOf⟩

/-- Fields of `IncomingGroupSticker` as set by its constructor (the extras
dict itself is a local of the constructor and is not stored). -/
structure IncomingGroupSticker where
  from_jid : String
  group_jid : String
  sticker_pack_id : Option String
  sticker_url : Option String
  sticker_id : Option String
  sticker_source : Option String
  png_preview : Option String
  uris : List GroupStickerUri
deriving Repr, DecidableEq

/-- `IncomingGroupSticker.__init__`: builds the extras dict with
`parse_extras(content.extras)` first, then pulls the four named sticker
fields out of it (each `None` when its key is absent), then `png-preview`
below `content.images` (required to exist: `content.images.find(...)`
raises when `images` is `None`) and the `uris` children. -/
def decodeIncomingGroupSticker (data : XmlNode) : Option IncomingGroupSticker := do
  let content ← data.findDesc "content"
  let extras ← content.findDesc "extras"
  let extras_map ← parse_extras extras
  let from_jid ← data.getAttr "from"
  let g ← data.findDesc "g"
  let group_jid ← g.getAttr "jid"
  let sticker_pack_id := dictLookup extras_map (some "sticker_pack_id")
  let sticker_url := dictLookup extras_map (some "sticker_url")
  let sticker_id := dictLookup extras_map (some "sticker_id")
  let sticker_source := dictLookup extras_map (some "sticker_source")
  let images ← content.findDesc "images"
  let png_preview := (images.findDesc "png-preview").map XmlNode.textOf
  let urisEl ← content.findDesc "uris"
  let uris ← (XmlForest.toList urisEl.childrenOf).mapM decodeStickerUri
  pure ⟨from_jid, group_jid, sticker_pack_id, sticker_url, sticker_id,
        sticker_source, png_preview, uris⟩

/-- C1: in `OutgoingReadReceipt.serialize` the group sub-element is appended
iff the literal substring `"groups"` occurs in the formatted `group_line`,
not iff a group identifier was supplied.  Evaluated: a receipt constructed
with the group identifier `"team_a@talk.kik.com"` (no `"groups"` substring)
serializes without any `g` element; with `group_jid = None` the element is
also absent; with a `"…@groups.kik.com"` identifier it is present. -/
theorem c1_read_receipt_group_element_by_substring :
    (OutgoingReadReceipt.serialize ⟨"a@talk.kik.com", "m1", some "team_a@talk.kik.com"⟩ "sid1" 12 =
      "<message type=\"receipt\" id=\"sid1\" to=\"a@talk.kik.com\" cts=\"12\"><kik push=\"false\" qos=\"true\" timestamp=\"12\" /><receipt xmlns=\"kik:message:receipt\" type=\"read\"><msgid id=\"m1\" /></receipt></message>")
    ∧ (OutgoingReadReceipt.serialize ⟨"a@talk.kik.com", "m1", none⟩ "sid1" 12 =
      "<message type=\"receipt\" id=\"sid1\" to=\"a@talk.kik.com\" cts=\"12\"><kik push=\"false\" qos=\"true\" timestamp=\"12\" /><receipt xmlns=\"kik:message:receipt\" type=\"read\"><msgid id=\"m1\" /></receipt></message>")
    ∧ (OutgoingReadReceipt.serialize ⟨"1100_g@groups.kik.com", "m1", some "1100_g@groups.kik.com"⟩ "sid1" 12 =
      "<message type=\"receipt\" id=\"sid1\" to=\"1100_g@groups.kik.com\" cts=\"12\"><kik push=\"false\" qos=\"true\" timestamp=\"12\" /><receipt xmlns=\"kik:message:receipt\" type=\"read\"><msgid id=\"m1\" /></receipt><g jid=\"1100_g@groups.kik.com\" /></message>") :=
  ⟨rfl, rfl, rfl⟩

/-- C2 counterexample: serializing an `OutgoingChatMessage` with an empty
`message_id` does not fail; it produces the complete stanza with an empty
`id` attribute. -/
theorem c2_counterexample_empty_id_serializes :
    OutgoingChatMessage.serialize ⟨"a@talk.kik.com", "hi", false, none⟩ "" 0 =
      "<message type=\"chat\" to=\"a@talk.kik.com\" id=\"\" cts=\"0\"><body>hi</body><preview>hi</preview><kik push=\"true\" qos=\"true\" timestamp=\"0\" /><request xmlns=\"kik:message:receipt\" r=\"true\" d=\"true\" /><ri></ri></message>" :=
  rfl

set_option maxHeartbeats 2000000 in
/-- C2 amended: no outbound serializer validates `message_id`; with an
empty `message_id` every variant succeeds and the produced stanza carries
an empty `id` attribute (`id=\x22\x22`). -/
theorem c2_amended_empty_id_accepted :
    (∀ (m : OutgoingChatMessage) (now : Nat), ∃ pre post,
        m.serialize "" now = pre ++ "id=\"\"" ++ post)
    ∧ (∀ (r : OutgoingReadReceipt) (now : Nat), ∃ pre post,
        r.serialize "" now = pre ++ "id=\"\"" ++ post)
    ∧ (∀ (r : OutgoingDeliveredReceipt) (now : Nat), ∃ pre post,
        r.serialize "" now = pre ++ "id=\"\"" ++ post)
    ∧ (∀ (e : OutgoingIsTypingEvent) (now : Nat), ∃ pre post,
        e.serialize "" now = pre ++ "id=\"\"" ++ post)
    ∧ (∀ (e : OutgoingGroupIsTypingEvent) (now : Nat), ∃ pre post,
        e.serialize "" now = pre ++ "id=\"\"" ++ post)
    ∧ (∀ (e : OutgoingLinkShareEvent) (now : Nat), ∃ pre post,
        e.serialize "" now = pre ++ "id=\"\"" ++ post) := by
  refine ⟨?_, ?_, ?_, ?_, ?_, ?_⟩
  · intro m now
    refine ⟨"<message type=\"" ++ (if !m.is_group then "chat" else "groupchat") ++
      "\" to=\"" ++ m.peer_jid ++ "\" ",
      " cts=\"" ++ toString now ++ "\">" ++ "<body>" ++ escape_xml m.body ++ "</body>" ++
      (if pyTruthyStr m.bot_mention_jid then
        "<mention><bot>" ++ pyStr m.bot_mention_jid ++ "</bot></mention>" else "") ++
      "<preview>" ++ escape_xml (pySlice m.body 20) ++ "</preview>" ++
      "<kik push=\"true\" qos=\"true\" timestamp=\"" ++ toString now ++
      "\" /><request xmlns=\"kik:message:receipt\" r=\"true\" d=\"true\" /><ri></ri></message>", ?_⟩
    apply String.ext
    simp only [OutgoingChatMessage.serialize, String.data_append, List.append_assoc]
    rfl
  · intro r now
    by_cases h : pyInStr "groups" ("<g jid=\"" ++ pyStr r.group_jid ++ "\" />") = true
    · refine ⟨"<message type=\"receipt\" ",
        " to=\"" ++ r.peer_jid ++ "\" cts=\"" ++ toString now ++ "\">" ++
        "<kik push=\"false\" qos=\"true\" timestamp=\"" ++ toString now ++ "\" />" ++
        "<receipt xmlns=\"kik:message:receipt\" type=\"read\">" ++
        "<msgid id=\"" ++ r.receipt_message_id ++ "\" />" ++ "</receipt>" ++
        ("<g jid=\"" ++ pyStr r.group_jid ++ "\" />") ++ "</message>", ?_⟩
      show OutgoingReadReceipt.serialize r "" now = _
      unfold OutgoingReadReceipt.serialize
      rw [if_pos h]
      apply String.ext
      simp only [String.data_append, List.append_assoc]
      rfl
    · refine ⟨"<message type=\"receipt\" ",
        " to=\"" ++ r.peer_jid ++ "\" cts=\"" ++ toString now ++ "\">" ++
        "<kik push=\"false\" qos=\"true\" timestamp=\"" ++ toString now ++ "\" />" ++
        "<receipt xmlns=\"kik:message:receipt\" type=\"read\">" ++
        "<msgid id=\"" ++ r.receipt_message_id ++ "\" />" ++ "</receipt>" ++
        "</message>", ?_⟩
      show OutgoingReadReceipt.serialize r "" now = _
      unfold OutgoingReadReceipt.serialize
      rw [if_neg h]
      apply String.ext
      simp only [String.data_append, List.append_assoc]
      rfl
  · intro r now
    refine ⟨"<message type=\"receipt\" ",
      " to=\"" ++ r.peer_jid ++ "\" cts=\"" ++ toString now ++ "\">" ++
      "<kik push=\"false\" qos=\"true\" timestamp=\"" ++ toString now ++ "\" />" ++
      "<receipt xmlns=\"kik:message:receipt\" type=\"delivered\">" ++
      "<msgid id=\"" ++ r.receipt_message_id ++ "\" />" ++ "</receipt></message>", ?_⟩
    apply String.ext
    simp only [OutgoingDeliveredReceipt.serialize, String.data_append, List.append_assoc]
    rfl
  · intro e now
    refine ⟨"<message type=\"chat\" to=\"" ++ e.peer_jid ++ "\" ",
      ">" ++ "<kik push=\"false\" qos=\"false\" timestamp=\"" ++ toString now ++ "\" />" ++
      "<is-typing val=\"" ++ pyBoolStr e.is_typing ++ "\" /></message>", ?_⟩
    apply String.ext
    simp only [OutgoingIsTypingEvent.serialize, String.data_append, List.append_assoc]
    rfl
  · intro e now
    refine ⟨"<message type=\"groupchat\" to=\"" ++ e.peer_jid ++ "\" ",
      ">" ++ "<pb></pb>" ++ "<kik push=\"false\" qos=\"false\" timestamp=\"" ++ toString now ++ "\" />" ++
      "<is-typing val=\"" ++ pyBoolStr e.is_typing ++ "\" /></message>", ?_⟩
    apply String.ext
    simp only [OutgoingGroupIsTypingEvent.serialize, String.data_append, List.append_assoc]
    rfl
  · intro e now
    refine ⟨"<message " ++ (if pyInStr "group" e.peer_jid then
        "type=\"groupchat\" xmlns=\"kik:groups\"" else "type=\"chat\"") ++
      " to=\"" ++ e.peer_jid ++ "\" ",
      " cts=\"" ++ toString now ++ "\">" ++
      "<pb></pb>" ++ "<kik push=\"true\" qos=\"true\" timestamp=\"" ++ toString now ++ "\" />" ++
      "<request xmlns=\"kik:message:receipt\" r=\"true\" d=\"true\" />" ++
      "<content id=\"\" app-id=\"com.kik.cards\" v=\"2\">" ++
      "<strings>" ++ "<app-name>" ++ e.app_name ++ "</app-name>" ++
      "<layout>article</layout>" ++ "<title>" ++ e.title ++ "</title>" ++
      "<text>" ++ e.text ++ "</text>" ++ "<allow-forward>true</allow-forward>" ++
      "</strings>" ++ "<extras />" ++ "<hashes />" ++ "<images>" ++ "</images>" ++
      "<uris>" ++ "<uri platform=\"cards\">" ++ e.link ++ "</uri>" ++ "<uri></uri>" ++
      "<uri>http://cdn.kik.com/cards/unsupported.html</uri>" ++ "</uris>" ++
      "</content>" ++ "</message>", ?_⟩
    apply String.ext
    simp only [OutgoingLinkShareEvent.serialize, String.data_append, List.append_assoc]
    rfl

/-- C3: for every body the serialized chat message carries a preview
element whose content is the XML escaping of the raw 20-character
(or shorter) prefix of the body, i.e. truncation happens on the raw string,
counted in characters, before escaping; the prefix has exactly
`min 20 (length body)` characters, and serialization is total. -/
theorem c3_preview_is_escaped_raw_truncation :
    ∀ (m : OutgoingChatMessage) (message_id : String) (now : Nat),
      (∃ pre post, m.serialize message_id now =
        pre ++ "<preview>" ++ escape_xml (pySlice m.body 20) ++ "</preview>" ++ post) ∧
      (pySlice m.body 20).length = min 20 m.body.length := by
  intro m message_id now
  constructor
  · refine ⟨"<message type=\"" ++ (if !m.is_group then "chat" else "groupchat") ++
      "\" to=\"" ++ m.peer_jid ++ "\" id=\"" ++ message_id ++ "\" cts=\"" ++ toString now ++ "\">" ++
      "<body>" ++ escape_xml m.body ++ "</body>" ++
      (if pyTruthyStr m.bot_mention_jid then
        "<mention><bot>" ++ pyStr m.bot_mention_jid ++ "</bot></mention>" else ""),
      "<kik push=\"true\" qos=\"true\" timestamp=\"" ++ toString now ++
      "\" /><request xmlns=\"kik:message:receipt\" r=\"true\" d=\"true\" /><ri></ri></message>", ?_⟩
    apply String.ext
    simp only [OutgoingChatMessage.serialize, String.data_append, List.append_assoc]
    rfl
  · have h1 : (pySlice m.body 20).length = (m.body.data.take 20).length := rfl
    have h2 : m.body.length = m.body.data.length := rfl
    rw [h1, h2, List.length_take]

/-- C4: the embedded encoders are deterministic functions of the event
fields, the message id and the clock reading `now`: equal fields, equal
id and an equal reading give byte-identical output (stated for the two
variants the claim cites). -/
theorem c4_serializers_deterministic :
    (∀ (m₁ m₂ : OutgoingChatMessage) (mid₁ mid₂ : String) (now₁ now₂ : Nat),
        m₁.peer_jid = m₂.peer_jid → m₁.body = m₂.body → m₁.is_group = m₂.is_group →
        m₁.bot_mention_jid = m₂.bot_mention_jid → mid₁ = mid₂ → now₁ = now₂ →
        m₁.serialize mid₁ now₁ = m₂.serialize mid₂ now₂) ∧
    (∀ (r₁ r₂ : OutgoingDeliveredReceipt) (mid₁ mid₂ : String) (now₁ now₂ : Nat),
        r₁.peer_jid = r₂.peer_jid → r₁.receipt_message_id = r₂.receipt_message_id →
        mid₁ = mid₂ → now₁ = now₂ →
        r₁.serialize mid₁ now₁ = r₂.serialize mid₂ now₂) := by
  constructor
  · intro m₁ m₂ mid₁ mid₂ now₁ now₂ h1 h2 h3 h4 h5 h6
    cases m₁; cases m₂; simp_all
  · intro r₁ r₂ mid₁ mid₂ now₁ now₂ h1 h2 h3 h4
    cases r₁; cases r₂; simp_all

/-- C4 witness: the determinism theorem applied at concrete events. -/
theorem c4_serializers_deterministic_witness :
    OutgoingChatMessage.serialize ⟨"a@talk.kik.com", "hey", false, none⟩ "id1" 5 =
      OutgoingChatMessage.serialize ⟨"a@talk.kik.com", "hey", false, none⟩ "id1" 5 ∧
    OutgoingDeliveredReceipt.serialize ⟨"a@talk.kik.com", "m9"⟩ "id2" 6 =
      OutgoingDeliveredReceipt.serialize ⟨"a@talk.kik.com", "m9"⟩ "id2" 6 :=
  ⟨c4_serializers_deterministic.1 _ _ _ _ _ _ rfl rfl rfl rfl rfl rfl,
   c4_serializers_deterministic.2 _ _ _ _ _ _ rfl rfl rfl rfl⟩

/-- A chat-message stanza whose `request` child has only the `r`
attribute: the `d` attribute is absent. -/
def c5Stanza : XmlNode :=
  .elem "message" [("from", "a@talk.kik.com"), ("to", "b@talk.kik.com"), ("id", "mid1")]
    (XmlForest.ofList
      [.elem "request" [("xmlns", "kik:message:receipt"), ("r", "true")] .nil,
       .elem "body" [] (XmlForest.ofList [.text "hello"])])

/-- The same stanza with an explicit `d="false"` attribute added. -/
def c5StanzaD : XmlNode :=
  .elem "message" [("from", "a@talk.kik.com"), ("to", "b@talk.kik.com"), ("id", "mid1")]
    (XmlForest.ofList
      [.elem "request" [("xmlns", "kik:message:receipt"), ("r", "true"), ("d", "false")] .nil,
       .elem "body" [] (XmlForest.ofList [.text "hello"])])

/-- C5 counterexample: a stanza whose `request` child is present but lacks
the `d` attribute does not decode `request_delivered_receipt` to false; the
unguarded `data.request['d']` raises (decode fails), while the same stanza
with `d="false"` decodes fine. -/
theorem c5_counterexample_absent_attribute_fails :
    decodeIncomingChatMessage c5Stanza = none ∧
    decodeIncomingChatMessage c5StanzaD =
      some ⟨false, true, none, none, "a@talk.kik.com", "b@talk.kik.com", some "hello", none⟩ :=
  ⟨rfl, rfl⟩

/-- C5 amended: when the stanza has no `request` descendant both receipt
flags decode to false; when it has one, decoding forces both `d` and `r`
attributes to be present (it fails otherwise), and each flag is true iff
its attribute value is the literal string "true" (any other value gives
false). -/
theorem c5_amended_request_flags :
    ∀ (data : XmlNode) (ev : IncomingChatMessage),
      decodeIncomingChatMessage data = some ev →
      (data.findDesc "request" = none →
          ev.request_delivered_receipt = false ∧ ev.request_read_receipt = false) ∧
      (∀ r, data.findDesc "request" = some r →
          (∃ v, r.getAttr "d" = some v ∧ ev.request_delivered_receipt = (v == "true")) ∧
          (∃ v, r.getAttr "r" = some v ∧ ev.request_read_receipt = (v == "true"))) := by
  intro data ev h
  unfold decodeIncomingChatMessage at h
  constructor
  · intro hreq
    simp only [hreq] at h
    cases hfj : data.getAttr "from" with
    | none => simp [hfj] at h
    | some fj =>
      cases htj : data.getAttr "to" with
      | none => simp [hfj, htj] at h
      | some tj =>
        cases hity : data.findDesc "is-typing" with
        | none =>
          simp [hfj, htj, hity] at h
          subst h
          constructor <;> rfl
        | some t =>
          cases hval : t.getAttr "val" with
          | none => simp [hfj, htj, hity, hval] at h
          | some v =>
            simp [hfj, htj, hity, hval] at h
            subst h
            constructor <;> rfl
  · intro r hr
    simp only [hr] at h
    cases hd : r.getAttr "d" with
    | none => simp [hd] at h
    | some vd =>
      cases hrr : r.getAttr "r" with
      | none => simp [hd, hrr] at h
      | some vr =>
        cases hfj : data.getAttr "from" with
        | none => simp [hd, hrr, hfj] at h
        | some fj =>
          cases htj : data.getAttr "to" with
          | none => simp [hd, hrr, hfj, htj] at h
          | some tj =>
            cases hity : data.findDesc "is-typing" with
            | none =>
              simp [hd, hrr, hfj, htj, hity] at h
              subst h
              exact ⟨⟨vd, rfl, rfl⟩, ⟨vr, rfl, rfl⟩⟩
            | some t =>
              cases hval : t.getAttr "val" with
              | none => simp [hd, hrr, hfj, htj, hity, hval] at h
              | some v =>
                simp [hd, hrr, hfj, htj, hity, hval] at h
                subst h
                exact ⟨⟨vd, rfl, rfl⟩, ⟨vr, rfl, rfl⟩⟩

/-- A valid one-to-one chat stanza with no `g` child anywhere. -/
def c6Stanza : XmlNode :=
  .elem "message" [("from", "a@talk.kik.com"), ("to", "b@talk.kik.com"), ("id", "mid2")]
    (XmlForest.ofList
      [.elem "request" [("r", "true"), ("d", "true")] .nil,
       .elem "body" [] (XmlForest.ofList [.text "hi all"])])

/-- The rendering of the Python exception raised by subscripting `None`:
CPython raises `TypeError` with the fixed text
`\x27NoneType\x27 object is not subscriptable`, naming no element. -/
def pyNoneTypeSubscriptError : String :=
  "TypeError: \x27NoneType\x27 object is not subscriptable"

/-- The rendering of the Python `KeyError` raised by `tag[key]` when the
attribute is absent: the exception carries only the key. -/
def pyKeyError (key : String) : String := "KeyError: \x27" ++ key ++ "\x27"

/-- `tag[key]` in the error-carrying model: the attribute value, or the
`KeyError` for the key. -/
def getAttrE (n : XmlNode) (key : String) : Except String String :=
  match n.getAttr key with
  | some v => .ok v
  | none => .error (pyKeyError key)

/-- `IncomingChatMessage.__init__` in the error-carrying model: the same
extraction as `decodeIncomingChatMessage`, but a raising subscript
produces the rendered Python exception (first failure in source line
order) instead of a bare `none`. -/
def decodeIncomingChatMessageE (data : XmlNode) : Except String IncomingChatMessage := do
  let request := data.findDesc "request"
  let request_delivered_receipt ← match request with
    | some r => (getAttrE r "d").map (fun v => v == "true")
    | none => pure false
  let request_read_receipt ← match request with
    | some r => (getAttrE r "r").map (fun v => v == "true")
    | none => pure false
  let status := (data.findDesc "status").map XmlNode.textOf
  let preview := (data.findDesc "preview").map XmlNode.textOf
  let from_jid ← getAttrE data "from"
  let to_jid ← getAttrE data "to"
  let body := (data.findChild "body").map XmlNode.textOf
  let is_typing ← match data.findDesc "is-typing" with
    | some t => (getAttrE t "val").map (fun v => some (v == "true"))
    | none => pure none
  pure ⟨request_delivered_receipt, request_read_receipt, status, preview,
        from_jid, to_jid, body, is_typing⟩

/-- `IncomingGroupChatMessage.__init__` in the error-carrying model:
after the base extraction, `g = data.find(\x27g\x27, recursive=False)` followed
by the unguarded `g[\x27jid\x27]` raises the generic unsubscriptable-`None`
`TypeError` when the direct `g` child is missing, and a `KeyError` for
`jid` when the child exists without the attribute. -/
def decodeIncomingGroupChatMessageE (data : XmlNode) : Except String IncomingGroupChatMessage := do
  let base ← decodeIncomingChatMessageE data
  match data.findChild "g" with
  | none => throw pyNoneTypeSubscriptError
  | some g => do
    let group_jid ← getAttrE g "jid"
    pure ⟨base, group_jid⟩

/-- C6 counterexample: a stanza whose base chat-message extraction
succeeds but which has no direct `g` child decodes to the generic
unsubscriptable-`None` `TypeError`, a fixed message that does not name
(or even contain) the missing element `g` — the error does not identify
the missing element. -/
theorem c6_counterexample_error_names_no_element :
    decodeIncomingChatMessageE c6Stanza =
      Except.ok ⟨true, true, none, none, "a@talk.kik.com", "b@talk.kik.com", some "hi all", none⟩ ∧
    decodeIncomingGroupChatMessageE c6Stanza = Except.error pyNoneTypeSubscriptError ∧
    pyInStr "g" pyNoneTypeSubscriptError = false :=
  ⟨rfl, rfl, rfl⟩

/-- C6 amended: decoding a group-chat-message stanza with no direct `g`
child always fails — it never yields an event with a defaulted group
identifier — but the failure is Python\x27s generic unsubscriptable-`None`
`TypeError` (raised by `g[\x27jid\x27]` on `None`), which does not identify the
missing element. -/
theorem c6_amended_missing_direct_g_fails_generically :
    ∀ (data : XmlNode), data.findChild "g" = none →
      decodeIncomingGroupChatMessage data = none ∧
      (∀ base, decodeIncomingChatMessageE data = Except.ok base →
        decodeIncomingGroupChatMessageE data = Except.error pyNoneTypeSubscriptError) := by
  intro data h
  constructor
  · unfold decodeIncomingGroupChatMessage
    cases hb : decodeIncomingChatMessage data with
    | none => simp [hb]
    | some base => simp [hb, h]
  · intro base hbase
    unfold decodeIncomingGroupChatMessageE
    simp [hbase, h]
    rfl

/-- C6 witness: the amended theorem at a concrete stanza without a direct
`g` child whose base extraction succeeds: the Option decode fails and the
error-carrying decode returns exactly the generic `TypeError`. -/
theorem c6_amended_missing_direct_g_fails_witness :
    c6Stanza.findChild "g" = none ∧
    decodeIncomingGroupChatMessage c6Stanza = none ∧
    decodeIncomingGroupChatMessageE c6Stanza = Except.error pyNoneTypeSubscriptError :=
  ⟨rfl, (c6_amended_missing_direct_g_fails_generically c6Stanza rfl).1,
   (c6_amended_missing_direct_g_fails_generically c6Stanza rfl).2
     ⟨true, true, none, none, "a@talk.kik.com", "b@talk.kik.com", some "hi all", none⟩ rfl⟩

/-- A request element whose `d` attribute has a value other than "true". -/
def c5wReq : XmlNode := .elem "request" [("d", "yes"), ("r", "true")] .nil

/-- A chat stanza containing `c5wReq`. -/
def c5wStanza : XmlNode :=
  .elem "message" [("from", "a@talk.kik.com"), ("to", "b@talk.kik.com"), ("id", "w1")]
    (XmlForest.ofList [c5wReq])

/-- The event `c5wStanza` decodes to. -/
def c5wEv : IncomingChatMessage :=
  ⟨false, true, none, none, "a@talk.kik.com", "b@talk.kik.com", none, none⟩

/-- C5 witness: the amended theorem applied at a concrete stanza whose `d`
attribute is "yes" (so the delivered flag decodes to false). -/
theorem c5_amended_request_flags_witness :
    decodeIncomingChatMessage c5wStanza = some c5wEv ∧
    (∃ v, c5wReq.getAttr "d" = some v ∧ c5wEv.request_delivered_receipt = (v == "true")) :=
  ⟨rfl, ((c5_amended_request_flags c5wStanza c5wEv rfl).2 c5wReq rfl).1⟩

/-- The extras element of the sticker stanza from the claim: exactly
`sticker_pack_id="abc"` and `sticker_id="7"`. -/
def c7Extras1 : XmlNode :=
  .elem "extras" [] (XmlForest.ofList
    [.elem "item" [] (XmlForest.ofList
      [.elem "key" [] (XmlForest.ofList [.text "sticker_pack_id"]),
       .elem "val" [] (XmlForest.ofList [.text "abc"])]),
     .elem "item" [] (XmlForest.ofList
      [.elem "key" [] (XmlForest.ofList [.text "sticker_id"]),
       .elem "val" [] (XmlForest.ofList [.text "7"])])])

/-- A group sticker stanza with extras `c7Extras1`. -/
def c7Stanza1 : XmlNode :=
  .elem "message" [("from", "u@talk.kik.com"), ("to", "me@talk.kik.com"), ("id", "s1")]
    (XmlForest.ofList
      [.elem "g" [("jid", "1100_g@groups.kik.com")] .nil,
       .elem "content" [("id", "s1"), ("app-id", "com.kik.ext.stickers"), ("v", "2")]
         (XmlForest.ofList
           [c7Extras1,
            .elem "images" [] (XmlForest.ofList
              [.elem "png-preview" [] (XmlForest.ofList [.text "iVBOR"])]),
            .elem "uris" [] (XmlForest.ofList
              [.elem "uri" [("platform", "android")] (XmlForest.ofList [.text "http://e.com/s"])])])])

/-- The same extras with an additional unknown key `theme_id`. -/
def c7Extras2 : XmlNode :=
  .elem "extras" [] (XmlForest.ofList
    [.elem "item" [] (XmlForest.ofList
      [.elem "key" [] (XmlForest.ofList [.text "sticker_pack_id"]),
       .elem "val" [] (XmlForest.ofList [.text "abc"])]),
     .elem "item" [] (XmlForest.ofList
      [.elem "key" [] (XmlForest.ofList [.text "sticker_id"]),
       .elem "val" [] (XmlForest.ofList [.text "7"])]),
     .elem "item" [] (XmlForest.ofList
      [.elem "key" [] (XmlForest.ofList [.text "theme_id"]),
       .elem "val" [] (XmlForest.ofList [.text "t9"])])])

/-- The sticker stanza with the extra unknown key. -/
def c7Stanza2 : XmlNode :=
  .elem "message" [("from", "u@talk.kik.com"), ("to", "me@talk.kik.com"), ("id", "s2")]
    (XmlForest.ofList
      [.elem "g" [("jid", "1100_g@groups.kik.com")] .nil,
       .elem "content" [("id", "s2"), ("app-id", "com.kik.ext.stickers"), ("v", "2")]
         (XmlForest.ofList
           [c7Extras2,
            .elem "images" [] (XmlForest.ofList
              [.elem "png-preview" [] (XmlForest.ofList [.text "iVBOR"])]),
            .elem "uris" [] (XmlForest.ofList
              [.elem "uri" [("platform", "android")] (XmlForest.ofList [.text "http://e.com/s"])])])])

/-- C7: the sticker decoder builds the flat extras table and pulls the
named fields from it.  For extras with exactly `sticker_pack_id="abc"` and
`sticker_id="7"` the decoded event carries those two values and `none`
(the absence marker) for `sticker_url` and `sticker_source`; an unknown
key does not raise and stays in the table without being surfaced. -/
theorem c7_sticker_extras_named_fields :
    decodeIncomingGroupSticker c7Stanza1 =
      some ⟨"u@talk.kik.com", "1100_g@groups.kik.com", some "abc", none, some "7", none,
            some "iVBOR", [⟨"android", "http://e.com/s"⟩]⟩ ∧
    decodeIncomingGroupSticker c7Stanza2 =
      some ⟨"u@talk.kik.com", "1100_g@groups.kik.com", some "abc", none, some "7", none,
            some "iVBOR", [⟨"android", "http://e.com/s"⟩]⟩ ∧
    parse_extras c7Extras2 =
      some [(some "sticker_pack_id", "abc"), (some "sticker_id", "7"), (some "theme_id", "t9")] :=
  ⟨rfl, rfl, rfl⟩

/-- C8: the link-share stanza selects its `type` attribute (and the
`kik:groups` namespace) by the code's group test on the destination
identifier, and its uris section is exactly the three alternatives in
order: the supplied link as the `cards` platform URI, an empty fallback
URI, and the fixed unsupported-content URI. -/
theorem c8_link_share_type_and_three_uris :
    ∀ (e : OutgoingLinkShareEvent) (message_id : String) (now : Nat),
      (∃ rest, e.serialize message_id now =
        "<message " ++ (if pyInStr "group" e.peer_jid then
            "type=\"groupchat\" xmlns=\"kik:groups\"" else "type=\"chat\"") ++ rest) ∧
      (∃ pre post, e.serialize message_id now =
        pre ++ "<uris>" ++ "<uri platform=\"cards\">" ++ e.link ++ "</uri>" ++
          "<uri></uri>" ++ "<uri>http://cdn.kik.com/cards/unsupported.html</uri>" ++
          "</uris>" ++ post) := by
  intro e message_id now
  constructor
  · refine ⟨" to=\"" ++ e.peer_jid ++ "\" id=\"" ++ message_id ++ "\" cts=\"" ++ toString now ++ "\">" ++
      "<pb></pb>" ++ "<kik push=\"true\" qos=\"true\" timestamp=\"" ++ toString now ++ "\" />" ++
      "<request xmlns=\"kik:message:receipt\" r=\"true\" d=\"true\" />" ++
      "<content id=\"" ++ message_id ++ "\" app-id=\"com.kik.cards\" v=\"2\">" ++
      "<strings>" ++ "<app-name>" ++ e.app_name ++ "</app-name>" ++
      "<layout>article</layout>" ++ "<title>" ++ e.title ++ "</title>" ++
      "<text>" ++ e.text ++ "</text>" ++ "<allow-forward>true</allow-forward>" ++
      "</strings>" ++ "<extras />" ++ "<hashes />" ++ "<images>" ++ "</images>" ++
      "<uris>" ++ "<uri platform=\"cards\">" ++ e.link ++ "</uri>" ++ "<uri></uri>" ++
      "<uri>http://cdn.kik.com/cards/unsupported.html</uri>" ++ "</uris>" ++
      "</content>" ++ "</message>", ?_⟩
    apply String.ext
    simp only [OutgoingLinkShareEvent.serialize, String.data_append, List.append_assoc]
  · refine ⟨"<message " ++ (if pyInStr "group" e.peer_jid then
        "type=\"groupchat\" xmlns=\"kik:groups\"" else "type=\"chat\"") ++
      " to=\"" ++ e.peer_jid ++ "\" id=\"" ++ message_id ++ "\" cts=\"" ++ toString now ++ "\">" ++
      "<pb></pb>" ++ "<kik push=\"true\" qos=\"true\" timestamp=\"" ++ toString now ++ "\" />" ++
      "<request xmlns=\"kik:message:receipt\" r=\"true\" d=\"true\" />" ++
      "<content id=\"" ++ message_id ++ "\" app-id=\"com.kik.cards\" v=\"2\">" ++
      "<strings>" ++ "<app-name>" ++ e.app_name ++ "</app-name>" ++
      "<layout>article</layout>" ++ "<title>" ++ e.title ++ "</title>" ++
      "<text>" ++ e.text ++ "</text>" ++ "<allow-forward>true</allow-forward>" ++
      "</strings>" ++ "<extras />" ++ "<hashes />" ++ "<images>" ++ "</images>",
      "</content>" ++ "</message>", ?_⟩
    apply String.ext
    simp only [OutgoingLinkShareEvent.serialize, String.data_append, List.append_assoc]

/-- C9: whenever a group-receipts stanza decodes successfully, its
`receipt_ids` is exactly the traversal of all `msgid` descendants of the
`receipt` element in document order, one `id` attribute per element. -/
theorem c9_receipt_ids_document_order :
    ∀ (data : XmlNode) (ev : IncomingGroupReceiptsEvent),
      decodeIncomingGroupReceiptsEvent data = some ev →
      ∃ receipt, data.findDesc "receipt" = some receipt ∧
        (receipt.findAllDesc "msgid").mapM (fun m => m.getAttr "id") = some ev.receipt_ids := by
  intro data ev h
  unfold decodeIncomingGroupReceiptsEvent at h
  cases hfj : data.getAttr "from" with
  | none => simp [hfj] at h
  | some fj =>
    cases htj : data.getAttr "to" with
    | none => simp [hfj, htj] at h
    | some tj =>
      cases hg : data.findDesc "g" with
      | none => simp [hfj, htj, hg] at h
      | some g =>
        cases hgj : g.getAttr "jid" with
        | none => simp [hfj, htj, hg, hgj] at h
        | some gj =>
          cases hrc : data.findDesc "receipt" with
          | none => simp [hfj, htj, hg, hgj, hrc] at h
          | some receipt =>
            cases hids : List.mapM.loop (fun m => m.getAttr "id") (XmlNode.findAllDesc "msgid" receipt) [] with
            | none => simp [hfj, htj, hg, hgj, hrc, hids] at h
            | some ids =>
              cases hty : receipt.getAttr "type" with
              | none => simp [hfj, htj, hg, hgj, hrc, hids, hty] at h
              | some ty =>
                simp [hfj, htj, hg, hgj, hrc, hids, hty] at h
                subst h
                refine ⟨receipt, rfl, ?_⟩
                show List.mapM.loop (fun m => m.getAttr "id") (XmlNode.findAllDesc "msgid" receipt) [] = some ids
                exact hids

/-- A group-receipts stanza whose receipt carries a duplicated `msgid`. -/
def c9Stanza : XmlNode :=
  .elem "message" [("from", "1100_g@groups.kik.com"), ("to", "me@talk.kik.com"), ("id", "r1")]
    (XmlForest.ofList
      [.elem "g" [("jid", "1100_g@groups.kik.com")] .nil,
       .elem "receipt" [("type", "read")] (XmlForest.ofList
         [.elem "msgid" [("id", "m1")] .nil,
          .elem "msgid" [("id", "m2")] .nil,
          .elem "msgid" [("id", "m1")] .nil])])

/-- The event `c9Stanza` decodes to: duplicates preserved, in order. -/
def c9Ev : IncomingGroupReceiptsEvent :=
  ⟨"1100_g@groups.kik.com", "me@talk.kik.com", "1100_g@groups.kik.com", ["m1", "m2", "m1"], "read"⟩

/-- C9 witness: the theorem at a concrete stanza whose receipt lists
`m1, m2, m1`: the decoded sequence keeps order and duplicates. -/
theorem c9_receipt_ids_document_order_witness :
    decodeIncomingGroupReceiptsEvent c9Stanza = some c9Ev ∧
    c9Ev.receipt_ids = ["m1", "m2", "m1"] ∧
    (∃ receipt, c9Stanza.findDesc "receipt" = some receipt ∧
      (receipt.findAllDesc "msgid").mapM (fun m => m.getAttr "id") = some c9Ev.receipt_ids) :=
  ⟨rfl, rfl, c9_receipt_ids_document_order c9Stanza c9Ev rfl⟩

/-- Updating every entry whose key is `k` leaves the first match found for
`k` as the fresh pair `(k, v)`. -/
lemma find?_update_self (k : Option String) (v : String) :
    ∀ m : List (Option String × String),
      (m.map (fun p => if p.1 = k then (k, v) else p)).find? (fun p => decide (p.1 = k)) =
        (m.find? (fun p => decide (p.1 = k))).map (fun _ => (k, v)) := by
  intro m
  induction m with
  | nil => rfl
  | cons p ps ih =>
    by_cases h : p.1 = k
    · simp [List.find?, h]
    · simp [List.find?, h, ih]

/-- Updating the entries for `k` does not change what is found for a
different key `k'`. -/
lemma find?_update_ne (k k' : Option String) (v : String) (hne : k' ≠ k) :
    ∀ m : List (Option String × String),
      (m.map (fun p => if p.1 = k then (k, v) else p)).find? (fun p => decide (p.1 = k')) =
        m.find? (fun p => decide (p.1 = k')) := by
  intro m
  induction m with
  | nil => rfl
  | cons p ps ih =>
    by_cases h : p.1 = k
    · have h2 : ¬ (k = k') := fun hh => hne hh.symm
      have h3 : ¬ (p.1 = k') := by rw [h]; exact h2
      simp [List.find?, h, h2, h3, ih]
    · by_cases h3 : p.1 = k'
      · simp [List.find?, h, h3, hne]
      · simp [List.find?, h, h3, ih]

/-- Python dict semantics: after `m[k] = v`, looking up `k` gives `v`. -/
lemma dictLookup_dictInsert_self (m : List (Option String × String)) (k : Option String) (v : String) :
    dictLookup (dictInsert m k v) k = some v := by
  unfold dictInsert dictLookup
  by_cases hmem : m.any (fun p => decide (p.1 = k)) = true
  · rw [if_pos hmem, find?_update_self]
    obtain ⟨x, hx, hpx⟩ := List.any_eq_true.mp hmem
    cases hfind : m.find? (fun p => decide (p.1 = k)) with
    | none =>
      rw [List.find?_eq_none] at hfind
      exact absurd hpx (hfind x hx)
    | some q => simp
  · rw [if_neg hmem, List.find?_append]
    have hnone : m.find? (fun p => decide (p.1 = k)) = none := by
      rw [List.find?_eq_none]
      intro x hx hcontra
      exact hmem (List.any_eq_true.mpr ⟨x, hx, hcontra⟩)
    simp [hnone, List.find?]

/-- Python dict semantics: after `m[k] = v`, looking up a different key
`k'` is unchanged. -/
lemma dictLookup_dictInsert_ne (m : List (Option String × String)) (k k' : Option String)
    (v : String) (hne : k' ≠ k) :
    dictLookup (dictInsert m k v) k' = dictLookup m k' := by
  unfold dictInsert dictLookup
  by_cases hmem : m.any (fun p => decide (p.1 = k)) = true
  · rw [if_pos hmem, find?_update_ne k k' v hne]
  · rw [if_neg hmem, List.find?_append]
    cases hf : m.find? (fun p => decide (p.1 = k')) with
    | some q => simp [hf]
    | none =>
      have h2 : ¬ (k = k') := fun hh => hne hh.symm
      simp [hf, List.find?, h2]

/-- Folding key/value pairs into a dict: looking up `k` gives the value of
the last pair with key `k`, and otherwise falls back to the accumulator. -/
lemma extrasFold_lookup_aux (k : Option String) :
    ∀ (pairs acc : List (Option String × String)),
      dictLookup (pairs.foldl (fun m p => dictInsert m p.1 p.2) acc) k =
        match pairs.reverse.find? (fun p => decide (p.1 = k)) with
        | some q => some q.2
        | none => dictLookup acc k := by
  intro pairs
  induction pairs with
  | nil => intro acc; rfl
  | cons p ps ih =>
    intro acc
    rw [List.foldl_cons, ih (dictInsert acc p.1 p.2), List.reverse_cons, List.find?_append]
    cases hf : ps.reverse.find? (fun q => decide (q.1 = k)) with
    | some q => rfl
    | none =>
      by_cases hpk : p.1 = k
      · simp [List.find?, hpk, dictLookup_dictInsert_self]
      · simp [List.find?, hpk, dictLookup_dictInsert_ne acc p.1 k p.2 (fun hh => hpk hh.symm)]

/-- Extras with a duplicated key: `sticker_id=7`, `sticker_pack_id=p1`,
then `sticker_id=9` again. -/
def c10Extras : XmlNode :=
  .elem "extras" [] (XmlForest.ofList
    [.elem "item" [] (XmlForest.ofList
      [.elem "key" [] (XmlForest.ofList [.text "sticker_id"]),
       .elem "val" [] (XmlForest.ofList [.text "7"])]),
     .elem "item" [] (XmlForest.ofList
      [.elem "key" [] (XmlForest.ofList [.text "sticker_pack_id"]),
       .elem "val" [] (XmlForest.ofList [.text "p1"])]),
     .elem "item" [] (XmlForest.ofList
      [.elem "key" [] (XmlForest.ofList [.text "sticker_id"]),
       .elem "val" [] (XmlForest.ofList [.text "9"])])])

/-- C10: the extras table built by `parse_extras` maps every key to the
val text of the last item with that key in document order (later items
overwrite earlier ones), leaving other keys untouched; evaluated on a
duplicated `sticker_id` the table holds the last value `9` (in the first
occurrence's position) while `sticker_pack_id` is unaffected. -/
theorem c10_extras_last_occurrence_wins :
    (∀ (extras : XmlNode) (m : List (Option String × String)),
        parse_extras extras = some m →
        ∃ pairs, (extras.findAllDesc "item").mapM extractItemPair = some pairs ∧
          ∀ k, dictLookup m k =
            (pairs.reverse.find? (fun p => decide (p.1 = k))).map (fun p => p.2)) ∧
    parse_extras c10Extras =
      some [(some "sticker_id", "9"), (some "sticker_pack_id", "p1")] := by
  constructor
  · intro extras m h
    unfold parse_extras at h
    cases hp : List.mapM.loop extractItemPair (XmlNode.findAllDesc "item" extras) [] with
    | none => simp [hp] at h
    | some pairs =>
      simp [hp] at h
      subst h
      refine ⟨pairs, ?_, ?_⟩
      · show List.mapM.loop extractItemPair (XmlNode.findAllDesc "item" extras) [] = some pairs
        exact hp
      · intro k
        rw [show extrasFold pairs = pairs.foldl (fun m p => dictInsert m p.1 p.2) [] from rfl,
          extrasFold_lookup_aux k pairs []]
        cases hf : pairs.reverse.find? (fun p => decide (p.1 = k)) <;> simp [hf, dictLookup]
  · rfl

/-- C10 witness: the general part of the theorem applied at the concrete
duplicated-key extras element, its decode hypothesis discharged by
evaluation; the table looks up `sticker_id` to the last value `9` while
`sticker_pack_id` is unaffected. -/
theorem c10_extras_last_occurrence_wins_witness :
    parse_extras c10Extras = some [(some "sticker_id", "9"), (some "sticker_pack_id", "p1")] ∧
    (∃ pairs, (c10Extras.findAllDesc "item").mapM extractItemPair = some pairs ∧
      ∀ k, dictLookup [(some "sticker_id", "9"), (some "sticker_pack_id", "p1")] k =
        (pairs.reverse.find? (fun p => decide (p.1 = k))).map (fun p => p.2)) ∧
    dictLookup [(some "sticker_id", "9"), (some "sticker_pack_id", "p1")] (some "sticker_id") = some "9" :=
  ⟨rfl,
   (c10_extras_last_occurrence_wins).1 c10Extras
     [(some "sticker_id", "9"), (some "sticker_pack_id", "p1")] rfl,
   rfl⟩
